import Mathlib

/-!
Shallow embedding of the status-update workflow of the DPKP submission-tracking
service: the `PATCH /submissions/{id}` status-update route handler and the
public tracking lookup `GET /track/{tracking_code}?last4_nik=XXXX`.

JavaScript `await` points serialize the handler, so the embedding is a
sequential function from the request, the database state and the behaviour of
the external collaborators (the two notification dispatchers and the
notification-log writes) to the response, the new database state and a trace
of the collaborator calls that were initiated.
-/

namespace DPKP

/-- The four status enumeration values of the `Submission` model
(`DataTypes.ENUM("PENGAJUAN_BARU", "DIPROSES", "SELESAI", "DITOLAK")`),
also the list the PATCH validation checks membership in. -/
def statusValues : List String :=
  ["PENGAJUAN_BARU", "DIPROSES", "SELESAI", "DITOLAK"]

/-- A row of the `submissions` table.  `email` is nullable
(`allowNull: true`); all other modelled columns are non-null strings.
The timestamps are kept as opaque strings. -/
structure Submission where
  id : String
  tracking_code : String
  nama : String
  nik : String
  email : Option String
  no_wa : String
  jenis_layanan : String
  status : String
  created_at : String
  updated_at : String
deriving Repr, DecidableEq

/-- JavaScript truthiness of the nullable `submission.email` field:
`null` and the empty string are falsy. -/
def emailTruthy : Option String → Bool
  | none => false
  | some s => s ≠ ""

/-- Result object returned by a dispatcher that did not throw:
the orchestrator reads only `.success`; the rest of the object is carried
opaquely into the log payload as `info`. -/
structure DispatchResult where
  success : Bool
  info : String
deriving Repr, DecidableEq

/-- The JSON payload stored on a notification log row:
`{ to, status, result }`. -/
structure Payload where
  «to» : String
  status : String
  result : DispatchResult
deriving Repr, DecidableEq

/-- The `channel` enumeration of the `NotificationLog` model. -/
inductive Channel
  | WHATSAPP
  | EMAIL
deriving Repr, DecidableEq

/-- The `send_status` enumeration of the `NotificationLog` model. -/
inductive SendStatus
  | SUCCESS
  | FAILED
deriving Repr, DecidableEq

/-- A row of the `notification_logs` table (id and created_at omitted:
they are generated and never read by the workflow). -/
structure LogRow where
  submission_id : String
  channel : Channel
  send_status : SendStatus
  payload : Payload
deriving Repr, DecidableEq

/-- Database state visible to the workflow. -/
structure DB where
  submissions : List Submission
  logs : List LogRow
deriving Repr, DecidableEq

/-- Outcome of awaiting one dispatcher call: it either resolved with a result
object or threw/rejected with an error message. -/
inductive DispatchOutcome
  | result (r : DispatchResult)
  | thrown (message : String)
deriving Repr, DecidableEq

/-- Behaviour of the external collaborators during one request.
`waLogErr`/`emailLogErr`: `some m` models the corresponding
`NotificationLog.create` rejecting with message `m`; `updateErr` likewise
for `submission.update({ status })`. -/
structure Env where
  updateErr : Option String
  waDispatch : DispatchOutcome
  emailDispatch : DispatchOutcome
  waLogErr : Option String
  emailLogErr : Option String
deriving Repr, DecidableEq

/-- Collaborator calls initiated by the handler, in initiation order. -/
inductive Event
  | dispatchWA
  | logWA
  | dispatchEmail
  | logEmail
deriving Repr, DecidableEq

/-- Response of the PATCH handler: HTTP status plus the JSON body fields the
route can produce (`message` always; `old_status`/`new_status`/`submission_id`
on success; `error` on the 500 catch path). -/
structure Response where
  status : Nat
  message : String
  old_status : Option String := none
  new_status : Option String := none
  submission_id : Option String := none
  error : Option String := none
deriving Repr, DecidableEq

/-- Outcome of one handler run: response, resulting database state, and the
trace of collaborator calls initiated. -/
structure HandlerOut where
  resp : Response
  db : DB
  trace : List Event
deriving Repr, DecidableEq

/-- Embedding of `Submission.findByPk(id)`: first row whose primary key
matches. -/
def findByPk (db : DB) (id : String) : Option Submission :=
  db.submissions.find? (fun s => s.id = id)

/-- Embedding of `submission.update({ status })`: rewrite the status of the row with the
given primary key. -/
def updateStatus (db : DB) (id : String) (st : String) : DB :=
  { db with
    submissions :=
      db.submissions.map (fun s => if s.id = id then { s with status := st } else s) }

/-- The generic message of the catch-all 500 response. -/
def internalErrorMessage : String := "Terjadi kesalahan internal server"

/-- The 500 response built in the catch block:
`{ message: "Terjadi kesalahan internal server", error: error.message }`. -/
def internalError (m : String) : Response :=
  { status := 500, message := internalErrorMessage, error := some m }

/-- The object literal of the WhatsApp `NotificationLog.create` call. -/
def waRowOf (s : Submission) (st : String) (r : DispatchResult) : LogRow :=
  { submission_id := s.id
    channel := Channel.WHATSAPP
    send_status := if r.success then SendStatus.SUCCESS else SendStatus.FAILED
    payload := { «to» := s.no_wa, status := st, result := r } }

/-- The object literal of the email `NotificationLog.create` call (built
only when `submission.email` is truthy, so `.getD ""` is never exercised). -/
def emailRowOf (s : Submission) (st : String) (r : DispatchResult) : LogRow :=
  { submission_id := s.id
    channel := Channel.EMAIL
    send_status := if r.success then SendStatus.SUCCESS else SendStatus.FAILED
    payload := { «to» := s.email.getD "", status := st, result := r } }

/-- The `PATCH /submissions/{id}` route handler.  `body` is the `status`
field of the parsed request body (`none` models a body without that field).
Mirrors the source: validate the status string against the enumeration
(400), `findByPk` (404), reject a no-op transition (400), persist the new
status, `await` the WhatsApp dispatcher, start its log write, `await` the
email dispatcher iff `submission.email` is truthy, start its log write,
`await Promise.all` of the started log writes, respond 200; any rejection
reaches the catch block and yields `internalError`.  A started
`NotificationLog.create` inserts its row iff it does not reject, independently
of later control flow. -/
def PATCH_handler (db : DB) (id : String) (body : Option String) (env : Env) :
    HandlerOut :=
  match body with
  | none => ⟨{ status := 400, message := "Status tidak valid" }, db, []⟩
  | some status =>
    if status ∉ statusValues then
      ⟨{ status := 400, message := "Status tidak valid" }, db, []⟩
    else
      match findByPk db id with
      | none => ⟨{ status := 404, message := "Pengajuan tidak ditemukan" }, db, []⟩
      | some submission =>
        if submission.status = status then
          ⟨{ status := 400, message := "Status sudah sama" }, db, []⟩
        else
          let oldStatus := submission.status
          match env.updateErr with
          | some m => ⟨internalError m, db, []⟩
          | none =>
            let db1 := updateStatus db id status
            match env.waDispatch with
            | DispatchOutcome.thrown m => ⟨internalError m, db1, [Event.dispatchWA]⟩
            | DispatchOutcome.result waResult =>
              let db2 :=
                if env.waLogErr = none then
                  { db1 with logs := db1.logs ++ [waRowOf submission status waResult] }
                else db1
              if emailTruthy submission.email then
                match env.emailDispatch with
                | DispatchOutcome.thrown m =>
                  ⟨internalError m, db2,
                    [Event.dispatchWA, Event.logWA, Event.dispatchEmail]⟩
                | DispatchOutcome.result emailResult =>
                  let db3 :=
                    if env.emailLogErr = none then
                      { db2 with
                        logs := db2.logs ++ [emailRowOf submission status emailResult] }
                    else db2
                  let trace :=
                    [Event.dispatchWA, Event.logWA, Event.dispatchEmail,
                     Event.logEmail]
                  match env.waLogErr with
                  | some m => ⟨internalError m, db3, trace⟩
                  | none =>
                    match env.emailLogErr with
                    | some m => ⟨internalError m, db3, trace⟩
                    | none =>
                      ⟨{ status := 200
                         message := "Status berhasil diupdate"
                         old_status := some oldStatus
                         new_status := some status
                         submission_id := some submission.id }, db3, trace⟩
              else
                match env.waLogErr with
                | some m => ⟨internalError m, db2, [Event.dispatchWA, Event.logWA]⟩
                | none =>
                  ⟨{ status := 200
                     message := "Status berhasil diupdate"
                     old_status := some oldStatus
                     new_status := some status
                     submission_id := some submission.id }, db2,
                    [Event.dispatchWA, Event.logWA]⟩

/-- Response of the tracking lookup: HTTP status, `message` on the error
paths, and on success the JSON body as its ordered key/value list. -/
structure TrackOut where
  status : Nat
  message : Option String := none
  fields : List (String × String) := []
deriving Repr, DecidableEq

/-- JavaScript `str.trim()`: strip leading and trailing whitespace. -/
def jsTrim (s : String) : String :=
  String.mk (((s.toList.dropWhile Char.isWhitespace).reverse.dropWhile
    Char.isWhitespace).reverse)

/-- JavaScript `str.slice(-4)`: the last four UTF-16 units, or the whole
string when it is shorter (Nat subtraction gives `drop 0` in that case). -/
def sliceLast4 (s : String) : String :=
  s.drop (s.length - 4)

/-- The `^\d+$` test on the `last4_nik` query parameter. -/
def allDigits (s : String) : Bool :=
  s ≠ "" && s.toList.all Char.isDigit

/-- Embedding of `Submission.findOne({ where: { tracking_code } })`. -/
def findByTrackingCode (db : DB) (tc : String) : Option Submission :=
  db.submissions.find? (fun s => s.tracking_code = tc)

/-- The redacted view built on a successful lookup: exactly the keys of the
`submissionData` object literal, in source order (`nik` and `email` absent). -/
def trackView (s : Submission) : List (String × String) :=
  [("id", s.id), ("tracking_code", s.tracking_code), ("nama", s.nama),
   ("jenis_layanan", s.jenis_layanan), ("status", s.status),
   ("created_at", s.created_at), ("updated_at", s.updated_at)]

/-- The `GET /track/{tracking_code}?last4_nik=XXXX` route handler.
`last4_nik` is `none` when the query parameter is absent
(`searchParams.get` returns `null`).  Mirrors the source: 400 on a blank
tracking code, 400 on an absent / non-4-character / non-numeric
`last4_nik`, 404 when no submission carries the trimmed tracking code,
403 when `nik.slice(-4)` differs from `last4_nik`, else the redacted view. -/
def GET_track (db : DB) (tracking_code : String) (last4_nik : Option String) :
    TrackOut :=
  if tracking_code = "" ∨ jsTrim tracking_code = "" then
    { status := 400, message := some "Kode tracking wajib diisi" }
  else
    match last4_nik with
    | none =>
      { status := 400
        message := some "4 digit terakhir NIK wajib diisi dan harus berupa angka" }
    | some l4 =>
      if l4 = "" ∨ l4.length ≠ 4 ∨ allDigits l4 = false then
        { status := 400
          message := some "4 digit terakhir NIK wajib diisi dan harus berupa angka" }
      else
        match findByTrackingCode db (jsTrim tracking_code) with
        | none => { status := 404, message := some "Pengajuan tidak ditemukan" }
        | some submission =>
          if sliceLast4 submission.nik ≠ l4 then
            { status := 403, message := some "4 digit terakhir NIK tidak sesuai" }
          else
            { status := 200, fields := trackView submission }

/-! ### Fixtures used by concrete witnesses and counterexamples -/

/-- A persisted submission without an email address. -/
def subNoEmail : Submission :=
  { id := "id-1", tracking_code := "TRK1", nama := "Budi",
    nik := "1234567890123456", email := none, no_wa := "0812",
    jenis_layanan := "KTP", status := "PENGAJUAN_BARU",
    created_at := "t0", updated_at := "t1" }

/-- A persisted submission with an email address. -/
def subEmail : Submission :=
  { subNoEmail with
    id := "id-2", tracking_code := "TRK2", email := some "a@b.com" }

/-- A two-row database with an empty notification log. -/
def db0 : DB := { submissions := [subNoEmail, subEmail], logs := [] }

/-- Collaborators all behaving: update persists, both dispatchers resolve
successfully, both log writes succeed. -/
def envHappy : Env :=
  { updateErr := none, waDispatch := DispatchOutcome.result ⟨true, "sent"⟩,
    emailDispatch := DispatchOutcome.result ⟨true, "sent"⟩,
    waLogErr := none, emailLogErr := none }

/-- An environment where both dispatchers resolve but report delivery
failure (`success: false`); log writes succeed. -/
def envDispatchFail : Env :=
  { updateErr := none, waDispatch := DispatchOutcome.result ⟨false, "down"⟩,
    emailDispatch := DispatchOutcome.result ⟨false, "down"⟩,
    waLogErr := none, emailLogErr := none }

/-- An environment where the WhatsApp dispatcher throws while the email
dispatcher would have resolved. -/
def envWaThrow : Env :=
  { updateErr := none, waDispatch := DispatchOutcome.thrown "boom",
    emailDispatch := DispatchOutcome.result ⟨true, "sent"⟩,
    waLogErr := none, emailLogErr := none }

/-! ### Helper lemmas -/

/-- Finding a primary key in the row list after rewriting the status of the
rows with that key yields the originally found row with its status
rewritten. -/
theorem find?_map_setStatus (l : List Submission) (id st : String) :
    (l.map (fun t => if t.id = id then { t with status := st } else t)).find?
        (fun t => t.id = id) =
      (l.find? (fun t => t.id = id)).map (fun t => { t with status := st }) := by
  induction l with
  | nil => rfl
  | cons a l ih =>
    by_cases h : a.id = id
    · simp [List.find?_cons, h]
    · simpa [List.find?_cons, h] using ih

/-- The function `updateStatus` leaves the log table untouched. -/
theorem updateStatus_logs (db : DB) (id st : String) :
    (updateStatus db id st).logs = db.logs := rfl

/-- The function `updateStatus` rewrites the status of the rows carrying the key. -/
theorem updateStatus_submissions (db : DB) (id st : String) :
    (updateStatus db id st).submissions =
      db.submissions.map
        (fun t => if t.id = id then { t with status := st } else t) := rfl

/-- The function `findByPk` reads only the submission table. -/
theorem findByPk_mk (subs : List Submission) (logs : List LogRow) (id : String) :
    findByPk { submissions := subs, logs := logs } id =
      subs.find? (fun t => t.id = id) := rfl

/-- Happy path without an email address: the handler updates the row,
dispatches WhatsApp only, writes one log row and answers 200. -/
theorem PATCH_happy_noEmail (db : DB) (id S2 : String) (s : Submission)
    (env : Env) (r : DispatchResult)
    (hfind : findByPk db id = some s)
    (hS2 : S2 ∈ statusValues)
    (hne : s.status ≠ S2)
    (hupd : env.updateErr = none)
    (hr : env.waDispatch = DispatchOutcome.result r)
    (he : emailTruthy s.email = false)
    (hwl : env.waLogErr = none) :
    PATCH_handler db id (some S2) env =
      ⟨{ status := 200, message := "Status berhasil diupdate"
         old_status := some s.status, new_status := some S2
         submission_id := some s.id },
       { submissions := (updateStatus db id S2).submissions
         logs := db.logs ++ [waRowOf s S2 r] },
       [Event.dispatchWA, Event.logWA]⟩ := by
  simp [PATCH_handler, hfind, hS2, hne, hupd, hr, he, hwl, updateStatus]

/-- Happy path with an email address: the handler updates the row,
dispatches both channels, writes two log rows and answers 200. -/
theorem PATCH_happy_email (db : DB) (id S2 : String) (s : Submission)
    (env : Env) (r r2 : DispatchResult)
    (hfind : findByPk db id = some s)
    (hS2 : S2 ∈ statusValues)
    (hne : s.status ≠ S2)
    (hupd : env.updateErr = none)
    (hr : env.waDispatch = DispatchOutcome.result r)
    (he : emailTruthy s.email = true)
    (hr2 : env.emailDispatch = DispatchOutcome.result r2)
    (hwl : env.waLogErr = none)
    (hel : env.emailLogErr = none) :
    PATCH_handler db id (some S2) env =
      ⟨{ status := 200, message := "Status berhasil diupdate"
         old_status := some s.status, new_status := some S2
         submission_id := some s.id },
       { submissions := (updateStatus db id S2).submissions
         logs := db.logs ++ [waRowOf s S2 r, emailRowOf s S2 r2] },
       [Event.dispatchWA, Event.logWA, Event.dispatchEmail, Event.logEmail]⟩ := by
  simp [PATCH_handler, hfind, hS2, hne, hupd, hr, he, hr2, hwl, hel,
    updateStatus]

/-! ### Claims -/

/-- C1: for every submission whose current status is a valid enumeration
value S1 and every requested valid status S2 ≠ S1, with the collaborators
behaving as contracted (the status write persists, both dispatchers resolve
with result objects, both log writes succeed), the PATCH handler returns
200, the persisted status of the submission equals S2 afterwards, and the
response body carries old_status = S1, new_status = S2 and the
submission's id. -/
theorem C1_status_update_success (db : DB) (id S2 : String) (s : Submission)
    (env : Env)
    (hfind : findByPk db id = some s)
    (hS1 : s.status ∈ statusValues)
    (hS2 : S2 ∈ statusValues)
    (hne : s.status ≠ S2)
    (hupd : env.updateErr = none)
    (hwa : ∃ r, env.waDispatch = DispatchOutcome.result r)
    (hem : emailTruthy s.email = true →
      ∃ r, env.emailDispatch = DispatchOutcome.result r)
    (hwl : env.waLogErr = none)
    (hel : env.emailLogErr = none) :
    (PATCH_handler db id (some S2) env).resp.status = 200 ∧
    (PATCH_handler db id (some S2) env).resp.old_status = some s.status ∧
    (PATCH_handler db id (some S2) env).resp.new_status = some S2 ∧
    (PATCH_handler db id (some S2) env).resp.submission_id = some s.id ∧
    findByPk (PATCH_handler db id (some S2) env).db id =
      some { s with status := S2 } := by
  obtain ⟨r, hr⟩ := hwa
  have hfind' : db.submissions.find? (fun t => t.id = id) = some s := hfind
  by_cases he : emailTruthy s.email
  · obtain ⟨r2, hr2⟩ := hem he
    rw [PATCH_happy_email db id S2 s env r r2 hfind hS2 hne hupd hr he hr2
      hwl hel]
    refine ⟨rfl, rfl, rfl, rfl, ?_⟩
    rw [findByPk_mk, updateStatus_submissions, find?_map_setStatus, hfind']
    rfl
  · rw [PATCH_happy_noEmail db id S2 s env r hfind hS2 hne hupd hr
      (Bool.not_eq_true _ ▸ he) hwl]
    refine ⟨rfl, rfl, rfl, rfl, ?_⟩
    rw [findByPk_mk, updateStatus_submissions, find?_map_setStatus, hfind']
    rfl

/-- Witness for C1 at a concrete input: updating `subNoEmail` (at
PENGAJUAN_BARU) to DIPROSES under well-behaved collaborators. -/
theorem C1_witness :
    (PATCH_handler db0 "id-1" (some "DIPROSES") envHappy).resp.status = 200 ∧
    (PATCH_handler db0 "id-1" (some "DIPROSES") envHappy).resp.old_status =
      some subNoEmail.status ∧
    (PATCH_handler db0 "id-1" (some "DIPROSES") envHappy).resp.new_status =
      some "DIPROSES" ∧
    (PATCH_handler db0 "id-1" (some "DIPROSES") envHappy).resp.submission_id =
      some subNoEmail.id ∧
    findByPk (PATCH_handler db0 "id-1" (some "DIPROSES") envHappy).db "id-1" =
      some { subNoEmail with status := "DIPROSES" } :=
  C1_status_update_success db0 "id-1" "DIPROSES" subNoEmail envHappy
    (by decide) (by decide) (by decide) (by decide) rfl
    ⟨⟨true, "sent"⟩, rfl⟩ (fun h => by simp [subNoEmail, emailTruthy] at h)
    rfl rfl

/-- C2: for every successful status-update event (step 1 persisted, both
reached dispatchers resolved, log writes succeeded), the rows appended to
the notification log by the event comprise exactly one WHATSAPP row, and
an EMAIL row exactly when the submission's email was truthy (a channel
with no destination produces no row). -/
theorem C2_one_log_row_per_channel (db : DB) (id S2 : String)
    (s : Submission) (env : Env) (r : DispatchResult)
    (hfind : findByPk db id = some s)
    (hS2 : S2 ∈ statusValues)
    (hne : s.status ≠ S2)
    (hupd : env.updateErr = none)
    (hr : env.waDispatch = DispatchOutcome.result r)
    (hem : emailTruthy s.email = true →
      ∃ r2, env.emailDispatch = DispatchOutcome.result r2)
    (hwl : env.waLogErr = none)
    (hel : env.emailLogErr = none) :
    (PATCH_handler db id (some S2) env).db.logs =
      db.logs ++ ((PATCH_handler db id (some S2) env).db.logs.drop
        db.logs.length) ∧
    (((PATCH_handler db id (some S2) env).db.logs.drop
        db.logs.length).countP
      (fun row => row.channel = Channel.WHATSAPP)) = 1 ∧
    (((PATCH_handler db id (some S2) env).db.logs.drop
        db.logs.length).countP
      (fun row => row.channel = Channel.EMAIL)) =
      (if emailTruthy s.email then 1 else 0) := by
  by_cases he : emailTruthy s.email
  · obtain ⟨r2, hr2⟩ := hem he
    rw [PATCH_happy_email db id S2 s env r r2 hfind hS2 hne hupd hr he hr2
      hwl hel]
    simp [List.drop_left, List.countP_cons, waRowOf, emailRowOf, he]
  · rw [PATCH_happy_noEmail db id S2 s env r hfind hS2 hne hupd hr
      (Bool.not_eq_true _ ▸ he) hwl]
    simp [List.drop_left, List.countP_cons, waRowOf, he]

/-- Witness for C2 at a concrete input: updating `subEmail` (which has an
email address) appends one WHATSAPP row and one EMAIL row. -/
theorem C2_witness :
    (PATCH_handler db0 "id-2" (some "DIPROSES") envHappy).db.logs =
      db0.logs ++ ((PATCH_handler db0 "id-2" (some "DIPROSES") envHappy).db.logs.drop
        db0.logs.length) ∧
    (((PATCH_handler db0 "id-2" (some "DIPROSES") envHappy).db.logs.drop
        db0.logs.length).countP
      (fun row => row.channel = Channel.WHATSAPP)) = 1 ∧
    (((PATCH_handler db0 "id-2" (some "DIPROSES") envHappy).db.logs.drop
        db0.logs.length).countP
      (fun row => row.channel = Channel.EMAIL)) =
      (if emailTruthy subEmail.email then 1 else 0) :=
  C2_one_log_row_per_channel db0 "id-2" "DIPROSES" subEmail envHappy
    ⟨true, "sent"⟩ (by decide) (by decide) (by decide) rfl rfl
    (fun _ => ⟨⟨true, "sent"⟩, rfl⟩) rfl rfl

/-- Every branch after a completed step-1 write leaves the submission table
at its just-updated value, always initiates the WhatsApp dispatcher, and,
whenever the WhatsApp dispatcher resolves (with any result) and the email
is truthy, also initiates the email dispatcher. -/
theorem PATCH_after_update (db : DB) (id S2 : String) (s : Submission)
    (env : Env)
    (hfind : findByPk db id = some s)
    (hS2 : S2 ∈ statusValues)
    (hne : s.status ≠ S2)
    (hupd : env.updateErr = none) :
    (PATCH_handler db id (some S2) env).db.submissions =
      (updateStatus db id S2).submissions ∧
    Event.dispatchWA ∈ (PATCH_handler db id (some S2) env).trace ∧
    (∀ r, env.waDispatch = DispatchOutcome.result r →
      emailTruthy s.email = true →
      Event.dispatchEmail ∈ (PATCH_handler db id (some S2) env).trace) := by
  cases hw : env.waDispatch <;> by_cases he : emailTruthy s.email <;>
  cases hew : env.emailDispatch <;> cases hwl : env.waLogErr <;>
  cases hel : env.emailLogErr <;>
  simp [PATCH_handler, hfind, hS2, hne, hupd, hw, he, hew, hwl, hel,
    updateStatus]

/-- C3: once the step-1 status write has completed, no dispatcher outcome
or log-write outcome whatsoever reverts the persisted status, and a
dispatcher reporting failure (a resolved result, per the dispatcher
contract) never prevents the other channel from being attempted: the
WhatsApp dispatcher is always invoked, and the email dispatcher is invoked
whenever the WhatsApp dispatcher resolved and an email destination
exists. -/
theorem C3_no_rollback_channel_independence (db : DB) (id S2 : String)
    (s : Submission) (env : Env)
    (hfind : findByPk db id = some s)
    (hS2 : S2 ∈ statusValues)
    (hne : s.status ≠ S2)
    (hupd : env.updateErr = none) :
    findByPk (PATCH_handler db id (some S2) env).db id =
      some { s with status := S2 } ∧
    Event.dispatchWA ∈ (PATCH_handler db id (some S2) env).trace ∧
    (∀ r, env.waDispatch = DispatchOutcome.result r →
      emailTruthy s.email = true →
      Event.dispatchEmail ∈ (PATCH_handler db id (some S2) env).trace) := by
  obtain ⟨hsub, hwa, hemail⟩ := PATCH_after_update db id S2 s env hfind hS2
    hne hupd
  refine ⟨?_, hwa, hemail⟩
  have hfind' : db.submissions.find? (fun t => t.id = id) = some s := hfind
  show (PATCH_handler db id (some S2) env).db.submissions.find?
    (fun t => t.id = id) = _
  rw [hsub, updateStatus_submissions, find?_map_setStatus, hfind']
  rfl

/-- Witness for C3 at a concrete input: both dispatchers report delivery
failure, yet the persisted status stays DIPROSES and both channels were
attempted. -/
theorem C3_witness :
    findByPk (PATCH_handler db0 "id-2" (some "DIPROSES") envDispatchFail).db
      "id-2" = some { subEmail with status := "DIPROSES" } ∧
    Event.dispatchWA ∈
      (PATCH_handler db0 "id-2" (some "DIPROSES") envDispatchFail).trace ∧
    (∀ r, envDispatchFail.waDispatch = DispatchOutcome.result r →
      emailTruthy subEmail.email = true →
      Event.dispatchEmail ∈
        (PATCH_handler db0 "id-2" (some "DIPROSES") envDispatchFail).trace) :=
  C3_no_rollback_channel_independence db0 "id-2" "DIPROSES" subEmail
    envDispatchFail (by decide) (by decide) (by decide) rfl

/-- Counterexample to C4: on `subEmail` (which has an email address), when
the WhatsApp dispatcher throws, the handler responds (500) without the
email dispatcher call ever being initiated — so the two dispatcher calls
are ordered (messaging strictly first) and do not both complete before the
request responds. -/
theorem C4_counterexample :
    emailTruthy subEmail.email = true ∧
    (PATCH_handler db0 "id-2" (some "DIPROSES") envWaThrow).resp.status = 500 ∧
    Event.dispatchEmail ∉
      (PATCH_handler db0 "id-2" (some "DIPROSES") envWaThrow).trace := by
  decide

/-- C4 as amended: within one PATCH request the dispatcher calls are
sequential, messaging first — the email dispatcher is initiated only after
the messaging dispatcher call has completed — and the request responds 200
only after every initiated notification-log write has completed
successfully (the `Promise.all` join covers the log writes). -/
theorem C4_sequential_dispatch_join (db : DB) (id : String)
    (body : Option String) (env : Env) :
    (Event.dispatchEmail ∈ (PATCH_handler db id body env).trace →
      List.Sublist [Event.dispatchWA, Event.dispatchEmail]
        (PATCH_handler db id body env).trace) ∧
    ((PATCH_handler db id body env).resp.status = 200 →
      (Event.logWA ∈ (PATCH_handler db id body env).trace →
        env.waLogErr = none) ∧
      (Event.logEmail ∈ (PATCH_handler db id body env).trace →
        env.emailLogErr = none)) := by
  cases body with
  | none => simp [PATCH_handler]
  | some status =>
    by_cases hv : status ∈ statusValues
    · cases hf : findByPk db id with
      | none => simp [PATCH_handler, hv, hf]
      | some s =>
        by_cases hsame : s.status = status
        · simp [PATCH_handler, hv, hf, hsame]
        · cases hu : env.updateErr with
          | some m =>
            simp [PATCH_handler, hv, hf, hsame, hu, internalError]
          | none =>
            cases hw : env.waDispatch <;>
            by_cases he : emailTruthy s.email <;>
            cases hew : env.emailDispatch <;>
            cases hwl : env.waLogErr <;>
            cases hel : env.emailLogErr <;>
            simp [PATCH_handler, hv, hf, hsame, hu, hw, he, hew, hwl, hel,
              internalError]
    · simp [PATCH_handler, hv]

/-- Witness for C4 as amended, at a concrete input on the happy path with
an email address: the email dispatch follows the WhatsApp dispatch and the
200 response implies both log writes succeeded. -/
theorem C4_witness :
    List.Sublist [Event.dispatchWA, Event.dispatchEmail]
      (PATCH_handler db0 "id-2" (some "DIPROSES") envHappy).trace ∧
    envHappy.waLogErr = none ∧ envHappy.emailLogErr = none :=
  have h := C4_sequential_dispatch_join db0 "id-2" (some "DIPROSES") envHappy
  ⟨h.1 (by decide), (h.2 (by decide)).1 (by decide),
    (h.2 (by decide)).2 (by decide)⟩

/-- C5: a dispatcher that resolves with `success: false` (no throw) still
gets a log row with `send_status = FAILED` for its channel, and the PATCH
request still returns 200 — for each of the two channels. -/
theorem C5_failed_dispatch_logged (db : DB) (id S2 : String)
    (s : Submission) (env : Env) (r : DispatchResult)
    (hfind : findByPk db id = some s)
    (hS2 : S2 ∈ statusValues)
    (hne : s.status ≠ S2)
    (hupd : env.updateErr = none)
    (hr : env.waDispatch = DispatchOutcome.result r)
    (hem : emailTruthy s.email = true →
      ∃ r2, env.emailDispatch = DispatchOutcome.result r2)
    (hwl : env.waLogErr = none)
    (hel : env.emailLogErr = none) :
    (PATCH_handler db id (some S2) env).resp.status = 200 ∧
    (r.success = false →
      ∃ row ∈ (PATCH_handler db id (some S2) env).db.logs,
        row.submission_id = s.id ∧ row.channel = Channel.WHATSAPP ∧
        row.send_status = SendStatus.FAILED) ∧
    (∀ r2, env.emailDispatch = DispatchOutcome.result r2 →
      emailTruthy s.email = true → r2.success = false →
      ∃ row ∈ (PATCH_handler db id (some S2) env).db.logs,
        row.submission_id = s.id ∧ row.channel = Channel.EMAIL ∧
        row.send_status = SendStatus.FAILED) := by
  by_cases he : emailTruthy s.email
  · obtain ⟨r2, hr2⟩ := hem he
    rw [PATCH_happy_email db id S2 s env r r2 hfind hS2 hne hupd hr he hr2
      hwl hel]
    refine ⟨rfl, fun hs => ⟨waRowOf s S2 r, by simp, by simp [waRowOf, hs]⟩,
      fun r2' hr2' _ hs2 => ?_⟩
    rw [hr2] at hr2'
    cases hr2'
    exact ⟨emailRowOf s S2 r2, by simp, by simp [emailRowOf, hs2]⟩
  · rw [PATCH_happy_noEmail db id S2 s env r hfind hS2 hne hupd hr
      (Bool.not_eq_true _ ▸ he) hwl]
    refine ⟨rfl, fun hs => ⟨waRowOf s S2 r, by simp, by simp [waRowOf, hs]⟩,
      fun r2' _ he' _ => absurd he' he⟩

/-- Witness for C5 at a concrete input: both dispatchers report
`success: false`, both FAILED rows exist, and the response is 200. -/
theorem C5_witness :
    (PATCH_handler db0 "id-2" (some "DIPROSES") envDispatchFail).resp.status
      = 200 ∧
    ((false : Bool) = false →
      ∃ row ∈ (PATCH_handler db0 "id-2" (some "DIPROSES") envDispatchFail).db.logs,
        row.submission_id = subEmail.id ∧ row.channel = Channel.WHATSAPP ∧
        row.send_status = SendStatus.FAILED) ∧
    (∀ r2, envDispatchFail.emailDispatch = DispatchOutcome.result r2 →
      emailTruthy subEmail.email = true → r2.success = false →
      ∃ row ∈ (PATCH_handler db0 "id-2" (some "DIPROSES") envDispatchFail).db.logs,
        row.submission_id = subEmail.id ∧ row.channel = Channel.EMAIL ∧
        row.send_status = SendStatus.FAILED) :=
  C5_failed_dispatch_logged db0 "id-2" "DIPROSES" subEmail envDispatchFail
    ⟨false, "down"⟩ (by decide) (by decide) (by decide) rfl rfl
    (fun _ => ⟨⟨false, "down"⟩, rfl⟩) rfl rfl

/-- C6: a PATCH request whose requested status equals the submission's
current status yields a 400 validation error, no mutation of any table,
and no collaborator call. -/
theorem C6_same_status_rejected (db : DB) (id : String) (s : Submission)
    (env : Env)
    (hfind : findByPk db id = some s) :
    (PATCH_handler db id (some s.status) env).resp.status = 400 ∧
    (PATCH_handler db id (some s.status) env).db = db ∧
    (PATCH_handler db id (some s.status) env).trace = [] := by
  by_cases hv : s.status ∈ statusValues
  · simp [PATCH_handler, hv, hfind]
  · simp [PATCH_handler, hv]

/-- Witness for C6 at a concrete input: re-requesting PENGAJUAN_BARU on
`subNoEmail` (already at PENGAJUAN_BARU) yields 400 and no change. -/
theorem C6_witness :
    (PATCH_handler db0 "id-1" (some subNoEmail.status) envHappy).resp.status
      = 400 ∧
    (PATCH_handler db0 "id-1" (some subNoEmail.status) envHappy).db = db0 ∧
    (PATCH_handler db0 "id-1" (some subNoEmail.status) envHappy).trace = [] :=
  C6_same_status_rejected db0 "id-1" subNoEmail envHappy (by decide)

/-- Counterexample to C7: a PATCH request whose id matches no submission
but whose requested status is outside the enumeration is answered 400 by
the validation step, not 404 — the claim's unconditional 404 fails. -/
theorem C7_counterexample :
    findByPk db0 "id-9" = none ∧
    (PATCH_handler db0 "id-9" (some "BATAL") envHappy).resp.status = 400 ∧
    (PATCH_handler db0 "id-9" (some "BATAL") envHappy).resp.status ≠ 404 := by
  decide

/-- C7 as amended: a PATCH request carrying a valid enumeration status
whose id matches no submission yields 404, mutates nothing, and initiates
no collaborator call (hence creates no log rows). -/
theorem C7_not_found (db : DB) (id S : String) (env : Env)
    (hv : S ∈ statusValues)
    (hf : findByPk db id = none) :
    (PATCH_handler db id (some S) env).resp.status = 404 ∧
    (PATCH_handler db id (some S) env).db = db ∧
    (PATCH_handler db id (some S) env).trace = [] := by
  simp [PATCH_handler, hv, hf]

/-- Witness for C7 as amended at a concrete input. -/
theorem C7_witness :
    (PATCH_handler db0 "id-9" (some "DIPROSES") envHappy).resp.status = 404 ∧
    (PATCH_handler db0 "id-9" (some "DIPROSES") envHappy).db = db0 ∧
    (PATCH_handler db0 "id-9" (some "DIPROSES") envHappy).trace = [] :=
  C7_not_found db0 "id-9" "DIPROSES" envHappy (by decide) (by decide)

/-- Counterexample to C8: when the WhatsApp dispatcher throws with message
"boom", the 500 response body carries that internal error message in its
`error` field — the body does not contain only a generic message. -/
theorem C8_counterexample :
    (PATCH_handler db0 "id-2" (some "DIPROSES") envWaThrow).resp.status
      = 500 ∧
    (PATCH_handler db0 "id-2" (some "DIPROSES") envWaThrow).resp.error
      = some "boom" := by
  decide

/-- C8 as amended: every uncaught internal error yields a 500 whose
`message` field is the generic message, together with the internal error's
own message exposed in an `error` field of the body (fuller detail such as
the stack is only logged server-side). -/
theorem C8_internal_error_response (db : DB) (id : String)
    (body : Option String) (env : Env) :
    (PATCH_handler db id body env).resp.status = 500 →
    (PATCH_handler db id body env).resp.message = internalErrorMessage ∧
    ∃ m, (PATCH_handler db id body env).resp.error = some m := by
  cases body with
  | none => simp [PATCH_handler]
  | some status =>
    by_cases hv : status ∈ statusValues
    · cases hf : findByPk db id with
      | none => simp [PATCH_handler, hv, hf]
      | some s =>
        by_cases hsame : s.status = status
        · simp [PATCH_handler, hv, hf, hsame]
        · cases hu : env.updateErr with
          | some m =>
            simp [PATCH_handler, hv, hf, hsame, hu, internalError]
          | none =>
            cases hw : env.waDispatch <;>
            by_cases he : emailTruthy s.email <;>
            cases hew : env.emailDispatch <;>
            cases hwl : env.waLogErr <;>
            cases hel : env.emailLogErr <;>
            simp [PATCH_handler, hv, hf, hsame, hu, hw, he, hew, hwl, hel,
              internalError]
    · simp [PATCH_handler, hv]

/-- Witness for C8 as amended at a concrete input producing a 500. -/
theorem C8_witness :
    (PATCH_handler db0 "id-2" (some "DIPROSES") envWaThrow).resp.message
      = internalErrorMessage ∧
    ∃ m, (PATCH_handler db0 "id-2" (some "DIPROSES") envWaThrow).resp.error
      = some m :=
  C8_internal_error_response db0 "id-2" (some "DIPROSES") envWaThrow
    (by decide)

/-- C10: when the WhatsApp dispatcher throws instead of resolving, the
handler answers 500, creates no notification-log row for either channel,
and the already-persisted new status is not rolled back. -/
theorem C10_wa_throw (db : DB) (id S2 : String) (s : Submission) (env : Env)
    (m : String)
    (hfind : findByPk db id = some s)
    (hS2 : S2 ∈ statusValues)
    (hne : s.status ≠ S2)
    (hupd : env.updateErr = none)
    (hw : env.waDispatch = DispatchOutcome.thrown m) :
    (PATCH_handler db id (some S2) env).resp.status = 500 ∧
    (PATCH_handler db id (some S2) env).db.logs = db.logs ∧
    findByPk (PATCH_handler db id (some S2) env).db id =
      some { s with status := S2 } := by
  have hout : PATCH_handler db id (some S2) env =
      ⟨internalError m, updateStatus db id S2, [Event.dispatchWA]⟩ := by
    simp [PATCH_handler, hfind, hS2, hne, hupd, hw]
  rw [hout]
  have hfind' : db.submissions.find? (fun t => t.id = id) = some s := hfind
  refine ⟨rfl, rfl, ?_⟩
  show (updateStatus db id S2).submissions.find? (fun t => t.id = id) = _
  rw [updateStatus_submissions, find?_map_setStatus, hfind']
  rfl

/-- Witness for C10 at a concrete input. -/
theorem C10_witness :
    (PATCH_handler db0 "id-2" (some "DIPROSES") envWaThrow).resp.status
      = 500 ∧
    (PATCH_handler db0 "id-2" (some "DIPROSES") envWaThrow).db.logs
      = db0.logs ∧
    findByPk (PATCH_handler db0 "id-2" (some "DIPROSES") envWaThrow).db
      "id-2" = some { subEmail with status := "DIPROSES" } :=
  C10_wa_throw db0 "id-2" "DIPROSES" subEmail envWaThrow "boom"
    (by decide) (by decide) (by decide) rfl rfl

/-- Trimming the empty string yields the empty string. -/
theorem jsTrim_empty : jsTrim "" = "" := rfl

/-- The `^\d+$` test rejects the empty string. -/
theorem allDigits_ne_empty (l : String) (h : allDigits l = true) : l ≠ "" := by
  intro he
  rw [he] at h
  exact absurd h (by decide)

/-- C9: the public tracking endpoint answers 400 on a malformed tracking
code (blank after trimming) or malformed `last4_nik` (absent, not of
length 4, or not all digits); 404 when the trimmed tracking code matches
no submission; 403 when `last4_nik` differs from the last 4 characters of
the stored nik; and on success the returned view is the redacted
`submissionData` object, whose keys include neither `nik` nor `email`. -/
theorem C9_track_contract (db : DB) (tc : String) (l4 : Option String) :
    ((jsTrim tc = "" ∨ l4 = none ∨
        (∃ l, l4 = some l ∧ (l.length ≠ 4 ∨ allDigits l = false))) →
      (GET_track db tc l4).status = 400) ∧
    (∀ l, jsTrim tc ≠ "" → l4 = some l → l.length = 4 → allDigits l = true →
      (findByTrackingCode db (jsTrim tc) = none →
        (GET_track db tc l4).status = 404) ∧
      (∀ s, findByTrackingCode db (jsTrim tc) = some s →
        (sliceLast4 s.nik ≠ l → (GET_track db tc l4).status = 403) ∧
        (sliceLast4 s.nik = l →
          (GET_track db tc l4).status = 200 ∧
          (GET_track db tc l4).fields = trackView s ∧
          "nik" ∉ (trackView s).map Prod.fst ∧
          "email" ∉ (trackView s).map Prod.fst))) := by
  by_cases h0 : tc = "" ∨ jsTrim tc = ""
  · constructor
    · intro _
      simp [GET_track, h0]
    · intro l htc hl4 _ _
      rcases h0 with h0 | h0
      · exact absurd (h0 ▸ jsTrim_empty) htc
      · exact absurd h0 htc
  · constructor
    · rintro (h | h | ⟨l, rfl, h⟩)
      · exact absurd (Or.inr h) h0
      · subst h
        simp [GET_track, h0]
      · rcases h with h | h
        · by_cases hle : l = "" <;>
          simp [GET_track, h0, hle, h]
        · by_cases hle : l = "" <;> by_cases hlen : l.length = 4 <;>
          simp [GET_track, h0, hle, hlen, h]
    · rintro l htc rfl hlen hdig
      have hbad : ¬(l = "" ∨ l.length ≠ 4 ∨ allDigits l = false) := by
        rintro (h | h | h)
        · exact allDigits_ne_empty l hdig h
        · exact h hlen
        · rw [hdig] at h
          cases h
      constructor
      · intro hf
        simp [GET_track, h0, hbad, hf]
      · intro s hf
        constructor
        · intro hnik
          simp [GET_track, h0, hbad, hf, hnik]
        · intro hnik
          refine ⟨?_, ?_, by simp [trackView], by simp [trackView]⟩ <;>
          simp [GET_track, h0, hbad, hf, hnik]

/-- Witness for C9 at a concrete input: a successful redacted lookup of
`subNoEmail` by tracking code and the last 4 digits of its nik. -/
theorem C9_witness :
    (GET_track db0 "TRK1" (some "3456")).status = 200 ∧
    (GET_track db0 "TRK1" (some "3456")).fields = trackView subNoEmail ∧
    "nik" ∉ (trackView subNoEmail).map Prod.fst ∧
    "email" ∉ (trackView subNoEmail).map Prod.fst :=
  (((C9_track_contract db0 "TRK1" (some "3456")).2 "3456" (by decide) rfl
    (by decide) (by decide)).2 subNoEmail (by decide)).2 (by decide)

end DPKP
